import Mathlib

/-!
# Verification of the LegalAI chat-session store (`src/LegalAI/app.py`)

Shallow embedding of the Flask + SQLite chat application. The two tables
`chat_sessions` and `chat_messages` become Lean lists kept in rowid
(insertion) order; `AUTOINCREMENT` becomes an explicit `nextId` counter;
`CURRENT_TIMESTAMP` becomes an explicit `now : Nat` argument to each
operation; SQLite's `ORDER BY timestamp ASC` over a rowid-ordered table
scan becomes a stable insertion sort by timestamp. The external agent
(`agent.run`) is modelled by an `Option String` parameter: `some ai` is a
successful turn producing reply text `ai`, `none` is a raised exception
(caught by the route's `except` block). Python's `str.strip()` becomes
`py_strip` — dropping whitespace characters from both ends of the
character list — and the slice `title[:50]` becomes the first 50
characters of the string.
-/

/-- A row of the `chat_messages` table. -/
structure Message where
  id : Nat
  session_id : String
  role : String
  content : String
  timestamp : Nat
deriving DecidableEq, Repr

/-- A row of the `chat_sessions` table. -/
structure Session where
  id : String
  title : String
  created_at : Nat
  updated_at : Nat
deriving DecidableEq, Repr

/-- The database: both tables in rowid (insertion) order, plus the
`AUTOINCREMENT` counter for `chat_messages.id`. -/
structure Store where
  sessions : List Session
  messages : List Message
  nextId : Nat
deriving DecidableEq, Repr

/-- The store produced by `init_db` on a fresh file: both tables empty;
SQLite `AUTOINCREMENT` hands out ids starting from 1. -/
def emptyStore : Store := ⟨[], [], 1⟩

/-- Python's `str.strip()`: remove leading and trailing whitespace
(modelled on ASCII whitespace — space, tab, carriage return, newline). -/
def py_strip (s : String) : String :=
  String.mk (((s.data.dropWhile Char.isWhitespace).reverse.dropWhile
    Char.isWhitespace).reverse)

/-- HTTP outcome of a route: the JSON `response` body on success, or the
status class of the failure. -/
inductive ApiStatus where
  | ok (response : String)
  | badRequest
  | notFound
  | serverError
deriving DecidableEq, Repr

/-- `create_new_session`: INSERT a session row with the placeholder title
(`created_at`/`updated_at` default to `CURRENT_TIMESTAMP`); the fresh
UUID is an explicit argument. -/
def create_new_session (s : Store) (sid : String) (now : Nat) : Store :=
  { s with sessions := s.sessions ++ [⟨sid, "New Legal Consultation", now, now⟩] }

/-- `get_chat_history`: SELECT messages WHERE `session_id = ?`
ORDER BY `timestamp` ASC. The table scan yields rows in rowid order and
ties on `timestamp` keep that scan order, i.e. a stable sort. -/
def get_chat_history (s : Store) (sid : String) : List Message :=
  List.insertionSort (fun a b => a.timestamp ≤ b.timestamp)
    (s.messages.filter (fun m => m.session_id == sid))

/-- `save_message`: INSERT a message row (id from `AUTOINCREMENT`,
timestamp `CURRENT_TIMESTAMP`), then UPDATE the parent session's
`updated_at`. -/
def save_message (s : Store) (sid role content : String) (now : Nat) : Store :=
  { s with
    messages := s.messages ++ [⟨s.nextId, sid, role, content, now⟩]
    nextId := s.nextId + 1
    sessions := s.sessions.map fun sess =>
      if sess.id == sid then { sess with updated_at := now } else sess }

/-- `display_title = title[:50] + "..." if len(title) > 50 else title`. -/
def display_title (title : String) : String :=
  if title.length > 50 then String.mk (title.data.take 50) ++ "..." else title

/-- `update_session_title`: UPDATE the session row's `title` (after
truncation) and `updated_at`. -/
def update_session_title (s : Store) (sid title : String) (now : Nat) : Store :=
  { s with
    sessions := s.sessions.map fun sess =>
      if sess.id == sid then
        { sess with title := display_title title, updated_at := now }
      else sess }

/-- Route `POST /api/chat/<session_id>/message` (`send_message`).
`agent = none` models `agent.run` raising (the route's `except` turns it
into a 500); `now` stamps the writes before the agent call, `now2` the
assistant insert after it. -/
def send_message (s : Store) (sid raw : String) (now : Nat)
    (agent : Option String) (now2 : Nat) : ApiStatus × Store :=
  let user_message := py_strip raw
  if user_message = "" then (.badRequest, s)
  else
    let s₁ := if (get_chat_history s sid).isEmpty then
                update_session_title s sid user_message now
              else s
    let s₂ := save_message s₁ sid "user" user_message now
    match agent with
    | none => (.serverError, s₂)
    | some ai => (.ok ai, save_message s₂ sid "assistant" ai now2)

/-- Route `DELETE /api/delete_session/<session_id>`: DELETE all messages
of the session, then DELETE the session row. -/
def delete_session (s : Store) (sid : String) : Store :=
  { s with
    messages := s.messages.filter (fun m => !(m.session_id == sid))
    sessions := s.sessions.filter (fun sess => !(sess.id == sid)) }

/-- The three committed write statements of the edit route: UPDATE the
matching row's content and timestamp, DELETE same-session rows with id
strictly greater, and UPDATE the parent session's `updated_at`. -/
def edit_truncate (s : Store) (sid : String) (mid : Nat) (new_message : String)
    (now : Nat) : Store :=
  { s with
    messages :=
      (s.messages.map fun m =>
        if m.id == mid && m.session_id == sid then
          { m with content := new_message, timestamp := now }
        else m).filter (fun m => !(m.session_id == sid && mid < m.id))
    sessions := s.sessions.map fun sess =>
      if sess.id == sid then { sess with updated_at := now } else sess }

/-- Route `PUT /api/chat/<session_id>/edit/<message_id>` (`edit_message`).
Reject empty (trimmed) bodies with 400; `fetchone` on
`SELECT role ... WHERE id = ? AND session_id = ?` is `List.find?`; 404
unless the found row's role is `"user"`; otherwise commit the
`edit_truncate` writes — then run the agent and, on success, save the
assistant reply. A raising agent (`none`) yields a 500 after the commit. -/
def edit_message (s : Store) (sid : String) (mid : Nat) (raw : String)
    (now now2 : Nat) (agent : Option String) : ApiStatus × Store :=
  let new_message := py_strip raw
  if new_message = "" then (.badRequest, s)
  else
    match s.messages.find? (fun m => m.id == mid && m.session_id == sid) with
    | none => (.notFound, s)
    | some found =>
      if found.role ≠ "user" then (.notFound, s)
      else
        let s₁ : Store := edit_truncate s sid mid new_message now
        match agent with
        | none => (.serverError, s₁)
        | some ai => (.ok ai, save_message s₁ sid "assistant" ai now2)

/-- The fixed URL the scraper tool is constructed with. -/
def fixed_url : String := "https://lawbhoomi.com/law-notes/"

/-- Environment outcome of the scraper's HTTP fetch + HTML parse.
`requestError` is any `requests.exceptions.RequestException` (unreachable
host, timeout, or a non-2xx status raised by `raise_for_status`);
`processError` is any other exception while processing the body;
`page` is a parsed document after `script`/`style` removal, carrying the
text of the `div.content-area` element when present and the full body
text otherwise used as fallback. -/
inductive FetchResult where
  | requestError (detail : String)
  | processError (detail : String)
  | page (mainContent : Option String) (bodyText : String)
deriving DecidableEq, Repr

/-- `' '.join(text.split())`: collapse whitespace runs to single spaces. -/
def clean_join (text : String) : String :=
  " ".intercalate ((text.split Char.isWhitespace).filter (· ≠ ""))

/-- `LawbhoomiScraperTool.run`, a total function of the environment
outcome: every branch, exceptional ones included, returns a string. -/
def scraper_run (r : FetchResult) : String :=
  match r with
  | .requestError d =>
      "Error:" ++ " Could not access LawBhoomi URL " ++ fixed_url ++ ". Details: " ++ d
  | .processError d =>
      "Error:" ++ " Failed to process content from URL " ++ fixed_url ++ ". Details: " ++ d
  | .page mainContent bodyText =>
      let text_content := match mainContent with
        | some t => t
        | none => bodyText
      let clean_text := clean_join text_content
      if clean_text.length < 50 then
        "Successfully accessed URL " ++ fixed_url ++
          ", but extracted very little content. Extracted snippet: " ++
          String.mk (clean_text.data.take 50) ++ "..."
      else
        "--- START OF LAW BHOOMI NOTES CONTENT ---\n\n" ++ clean_text ++
          "\n\n--- END OF LAW BHOOMI NOTES CONTENT ---"

/-!
## Well-formedness of reachable stores

Along the rowid-ordered message list of any store reachable through the
API with a monotone clock: ids are strictly increasing (`AUTOINCREMENT`
assigns them in insertion order and edits never reorder rows), within
each session timestamps are non-decreasing along the list (an edit
refreshes a timestamp only after truncating everything later in that
session), and every id is below the counter.
-/

def WF (s : Store) : Prop :=
  s.messages.Pairwise (fun a b =>
    a.id < b.id ∧ (a.session_id = b.session_id → a.timestamp ≤ b.timestamp))
  ∧ ∀ m ∈ s.messages, m.id < s.nextId

instance (s : Store) : Decidable (WF s) := by
  unfold WF; infer_instance

/-!
## Theorems
-/

/-- **C8.** A send-message request whose body message is empty or
whitespace-only (i.e. trims to the empty string) returns a 400-class
failure, and the store — messages, sessions, counter — is returned
untouched: nothing is persisted. -/
theorem send_message_empty_is_400 (s : Store) (sid raw : String) (now : Nat)
    (agent : Option String) (now2 : Nat) (h : py_strip raw = "") :
    send_message s sid raw now agent now2 = (.badRequest, s) := by
  simp [send_message, h]

/-- Witness for C8 at a concrete whitespace-only request. -/
theorem send_message_empty_is_400_witness :
    (py_strip " \t " = "") ∧
      send_message emptyStore "s" " \t " 0 (some "reply") 1 = (.badRequest, emptyStore) :=
  ⟨by decide, send_message_empty_is_400 emptyStore "s" " \t " 0 (some "reply") 1 (by decide)⟩

/-- **C6.** `delete_session` removes the session row and every message of
the session: afterwards no session with that id and no message with that
`session_id` remain, and `get_chat_history` for that id is empty. -/
theorem delete_session_removes_all (s : Store) (sid : String) :
    (∀ sess ∈ (delete_session s sid).sessions, sess.id ≠ sid) ∧
    (∀ m ∈ (delete_session s sid).messages, m.session_id ≠ sid) ∧
    get_chat_history (delete_session s sid) sid = [] := by
  refine ⟨?_, ?_, ?_⟩
  · intro sess hmem
    simp only [delete_session, List.mem_filter, Bool.not_eq_true', beq_eq_false_iff_ne,
      ne_eq] at hmem
    exact hmem.2
  · intro m hmem
    simp only [delete_session, List.mem_filter, Bool.not_eq_true', beq_eq_false_iff_ne,
      ne_eq] at hmem
    exact hmem.2
  · simp [get_chat_history, delete_session, List.filter_filter]

/-- **C9.** The scraper's `run` is a total function of the fetch outcome
(it returns a string on every branch, so no exception escapes), and on an
HTTP-fetch failure — unreachable host, timeout, or non-2xx status raised
by `raise_for_status`, all `RequestException`s — as well as on any other
processing failure, the returned string begins with `"Error:"`. -/
theorem scraper_run_error_prefix :
    ∀ d : String,
      (∃ rest, scraper_run (.requestError d) = "Error:" ++ rest) ∧
      (∃ rest, scraper_run (.processError d) = "Error:" ++ rest) := by
  intro d
  constructor
  · refine ⟨" Could not access LawBhoomi URL " ++ fixed_url ++ ". Details: " ++ d, ?_⟩
    show "Error:" ++ " Could not access LawBhoomi URL " ++ fixed_url ++ ". Details: " ++ d
        = "Error:" ++ (" Could not access LawBhoomi URL " ++ fixed_url ++ ". Details: " ++ d)
    simp only [String.append_assoc]
  · refine ⟨" Failed to process content from URL " ++ fixed_url ++ ". Details: " ++ d, ?_⟩
    show "Error:" ++ " Failed to process content from URL " ++ fixed_url ++ ". Details: " ++ d
        = "Error:" ++ (" Failed to process content from URL " ++ fixed_url ++ ". Details: " ++ d)
    simp only [String.append_assoc]

/-- After the title-update map, every session row with the target id
carries the truncated display title. -/
lemma all_title_after_update (l : List Session) (sid t : String) (now : Nat) :
    ((l.map fun sess => if sess.id == sid then
        { sess with title := display_title t, updated_at := now } else sess).all
      fun sess => sess.id != sid || sess.title == display_title t) = true := by
  simp only [List.all_eq_true, List.mem_map]
  rintro x ⟨sess, _, rfl⟩
  by_cases h : sess.id = sid <;> simp [h]

/-- Touching `updated_at` keeps ids and titles, hence preserves the
"title already rewritten" property. -/
lemma all_title_after_touch (l : List Session) (sid T : String) (now : Nat)
    (h : (l.all fun sess => sess.id != sid || sess.title == T) = true) :
    ((l.map fun sess => if sess.id == sid then { sess with updated_at := now }
        else sess).all
      fun sess => sess.id != sid || sess.title == T) = true := by
  simp only [List.all_eq_true, List.mem_map] at h ⊢
  rintro x ⟨sess, hmem, rfl⟩
  have hx := h sess hmem
  by_cases hid : sess.id = sid <;> simp_all

/-- **C3.** The stored display title is the first 50 characters of the
raw title followed by `"..."` when the raw title is longer than 50
characters, and the raw title itself otherwise, so its length is always
at most 53; and the first message sent to a session (history empty at
the time of the check) rewrites that session's title to exactly this
truncation of the (stripped) message. -/
theorem display_title_spec (t : String) :
    (display_title t).length ≤ 53 ∧
    (t.length ≤ 50 → display_title t = t) ∧
    (50 < t.length → display_title t = String.mk (t.data.take 50) ++ "...") ∧
    (∀ s sid raw now agent now2, py_strip raw = t → t ≠ "" →
      (get_chat_history s sid).isEmpty = true →
      ((send_message s sid raw now agent now2).2.sessions.all
        fun sess => sess.id != sid || sess.title == display_title t) = true) := by
  refine ⟨?_, ?_, ?_, ?_⟩
  · by_cases h : t.length > 50
    · simp only [display_title, if_pos h, String.length_append, String.length_mk,
        List.length_take]
      have h3 : ("..." : String).length = 3 := by decide
      omega
    · simp only [display_title, if_neg h]
      omega
  · intro h
    simp [display_title, Nat.not_lt.2 h]
  · intro h
    simp [display_title, h]
  · intro s sid raw now agent now2 hraw hne hempty
    cases agent with
    | none =>
        simp only [send_message, hraw, hne, if_false, hempty, if_true, save_message,
          update_session_title]
        exact all_title_after_touch _ _ _ _ (all_title_after_update s.sessions sid t now)
    | some ai =>
        simp only [send_message, hraw, hne, if_false, hempty, if_true, save_message,
          update_session_title]
        exact all_title_after_touch _ _ _ _
          (all_title_after_touch _ _ _ _ (all_title_after_update s.sessions sid t now))

/-- Witness for C3: a 25-character first message becomes the title
verbatim, an 80-character one is truncated to 50 characters plus `"..."`
(length 53), and sending the 25-character message as the first message of
a concrete fresh session rewrites that session's title accordingly. -/
theorem display_title_spec_witness :
    display_title "What is a legal contract?" = "What is a legal contract?" ∧
    display_title
        "Explain the doctrine of consideration in Indian contract law with leading cases."
      = String.mk
          ("Explain the doctrine of consideration in Indian contract law with leading cases.".data.take
            50) ++ "..." ∧
    (display_title
        "Explain the doctrine of consideration in Indian contract law with leading cases.").length
      ≤ 53 ∧
    ((send_message ⟨[⟨"s", "New Legal Consultation", 0, 0⟩], [], 1⟩ "s"
        "What is a legal contract?" 1 (some "reply") 2).2.sessions.all
      fun sess => sess.id != "s" || sess.title == display_title "What is a legal contract?")
      = true :=
  ⟨(display_title_spec "What is a legal contract?").2.1 (by decide),
   (display_title_spec
      "Explain the doctrine of consideration in Indian contract law with leading cases.").2.2.1
     (by decide),
   (display_title_spec
      "Explain the doctrine of consideration in Indian contract law with leading cases.").1,
   (display_title_spec "What is a legal contract?").2.2.2
     ⟨[⟨"s", "New Legal Consultation", 0, 0⟩], [], 1⟩ "s" "What is a legal contract?" 1
     (some "reply") 2 (by decide) (by decide) (by decide)⟩

/-- In a well-formed store the rowid-ordered messages of one session are
already sorted by timestamp. -/
lemma history_filter_sorted (s : Store) (sid : String) (h : WF s) :
    (s.messages.filter fun m => m.session_id == sid).Sorted
      (fun a b : Message => a.timestamp ≤ b.timestamp) := by
  refine (h.1.filter (fun m => m.session_id == sid)).imp_of_mem ?_
  intro a b ha hb hr
  have ha' := (List.mem_filter.1 ha).2
  have hb' := (List.mem_filter.1 hb).2
  rw [beq_iff_eq] at ha' hb'
  exact hr.2 (ha'.trans hb'.symm)

/-- **C2.** In a well-formed store (ids strictly increasing along the
rowid order — they are assigned monotonically at insertion — and
per-session timestamps non-decreasing), `get_chat_history` returns
exactly the session's messages in insertion (rowid) order, and that
order is sorted by timestamp ascending with ties broken by id
ascending. -/
theorem get_chat_history_insertion_order (s : Store) (sid : String) (h : WF s) :
    get_chat_history s sid = (s.messages.filter fun m => m.session_id == sid) ∧
    (get_chat_history s sid).Pairwise (fun a b =>
      a.timestamp < b.timestamp ∨ (a.timestamp = b.timestamp ∧ a.id < b.id)) := by
  have heq : get_chat_history s sid
      = (s.messages.filter fun m => m.session_id == sid) :=
    (history_filter_sorted s sid h).insertionSort_eq
  refine ⟨heq, ?_⟩
  rw [heq]
  refine (h.1.filter (fun m => m.session_id == sid)).imp_of_mem ?_
  intro a b ha hb hr
  have ha' := (List.mem_filter.1 ha).2
  have hb' := (List.mem_filter.1 hb).2
  rw [beq_iff_eq] at ha' hb'
  rcases Nat.lt_or_ge a.timestamp b.timestamp with hlt | hge
  · exact Or.inl hlt
  · exact Or.inr ⟨Nat.le_antisymm (hr.2 (ha'.trans hb'.symm)) hge, hr.1⟩

/-- Witness for C2 on a concrete well-formed two-session store. -/
theorem get_chat_history_insertion_order_witness :
    WF ⟨[⟨"s", "T", 0, 4⟩, ⟨"t", "U", 0, 3⟩],
        [⟨1, "s", "user", "a", 1⟩, ⟨2, "s", "assistant", "b", 1⟩,
         ⟨3, "t", "user", "c", 2⟩, ⟨4, "s", "user", "d", 4⟩], 5⟩ ∧
    (get_chat_history ⟨[⟨"s", "T", 0, 4⟩, ⟨"t", "U", 0, 3⟩],
        [⟨1, "s", "user", "a", 1⟩, ⟨2, "s", "assistant", "b", 1⟩,
         ⟨3, "t", "user", "c", 2⟩, ⟨4, "s", "user", "d", 4⟩], 5⟩ "s"
      = (Store.messages ⟨[⟨"s", "T", 0, 4⟩, ⟨"t", "U", 0, 3⟩],
          [⟨1, "s", "user", "a", 1⟩, ⟨2, "s", "assistant", "b", 1⟩,
           ⟨3, "t", "user", "c", 2⟩, ⟨4, "s", "user", "d", 4⟩], 5⟩).filter
          (fun m => m.session_id == "s") ∧
      (get_chat_history ⟨[⟨"s", "T", 0, 4⟩, ⟨"t", "U", 0, 3⟩],
          [⟨1, "s", "user", "a", 1⟩, ⟨2, "s", "assistant", "b", 1⟩,
           ⟨3, "t", "user", "c", 2⟩, ⟨4, "s", "user", "d", 4⟩], 5⟩ "s").Pairwise
        (fun a b => a.timestamp < b.timestamp ∨
          (a.timestamp = b.timestamp ∧ a.id < b.id))) :=
  ⟨by decide,
   get_chat_history_insertion_order
     ⟨[⟨"s", "T", 0, 4⟩, ⟨"t", "U", 0, 3⟩],
      [⟨1, "s", "user", "a", 1⟩, ⟨2, "s", "assistant", "b", 1⟩,
       ⟨3, "t", "user", "c", 2⟩, ⟨4, "s", "user", "d", 4⟩], 5⟩ "s" (by decide)⟩

/-- A store reachable purely through the API: create a session, chat in
it, delete it, then send another message to the same (now deleted) id.
The last send re-inserts a message under the deleted session id, since
`send_message` never checks that the session row exists. -/
def orphanDemoStore : Store :=
  (send_message
    (delete_session
      (send_message (create_new_session emptyStore "s" 0) "s" "hello" 1
        (some "reply") 2).2
      "s")
    "s" "hello again" 3 (some "reply2") 4).2

/-- Counterexample to C7 as stated: in `orphanDemoStore` the session id
`"s"` was previously deleted and no session row with that id exists, yet
`get_chat_history` for it is non-empty — the messages sent to the deleted
id are returned. -/
theorem get_chat_history_unknown_session_counterexample :
    (∀ sess ∈ orphanDemoStore.sessions, sess.id ≠ "s") ∧
    get_chat_history orphanDemoStore "s" ≠ [] := by decide

/-- **C7 (amended).** `get_chat_history` is a total function (no error
path), and for every session id with no stored messages — in particular
an id that was never used, or one whose session was just deleted — it
returns the empty sequence. -/
theorem get_chat_history_no_messages_empty (s : Store) (sid : String)
    (h : ∀ m ∈ s.messages, m.session_id ≠ sid) :
    get_chat_history s sid = [] := by
  have hf : s.messages.filter (fun m => m.session_id == sid) = [] := by
    rw [List.filter_eq_nil_iff]
    intro m hm
    simpa using h m hm
  simp [get_chat_history, hf]

/-- Witness for the amended C7: right after deleting a concrete session,
its history is empty. -/
theorem get_chat_history_no_messages_empty_witness :
    (∀ m ∈ (delete_session ⟨[⟨"s", "T", 0, 0⟩], [⟨1, "s", "user", "a", 0⟩], 2⟩
        "s").messages, m.session_id ≠ "s") ∧
    get_chat_history (delete_session ⟨[⟨"s", "T", 0, 0⟩],
        [⟨1, "s", "user", "a", 0⟩], 2⟩ "s") "s" = [] :=
  ⟨by decide,
   get_chat_history_no_messages_empty
     (delete_session ⟨[⟨"s", "T", 0, 0⟩], [⟨1, "s", "user", "a", 0⟩], 2⟩ "s") "s"
     (by decide)⟩

/-- **C10.** When the agent invocation raises (modelled by `agent = none`)
on a send-message request with non-empty (stripped) content, the endpoint
returns a 500-class error, yet the user message is already committed —
the message list is exactly the old one plus the new user row — no
assistant message is added (the assistant rows are unchanged), and when
the request was the session's first message the rewritten session title
also remains committed. -/
theorem send_message_agent_failure (s : Store) (sid raw : String) (now now2 : Nat)
    (h : py_strip raw ≠ "") :
    (send_message s sid raw now none now2).1 = .serverError ∧
    (send_message s sid raw now none now2).2.messages
      = s.messages ++ [⟨s.nextId, sid, "user", py_strip raw, now⟩] ∧
    ((send_message s sid raw now none now2).2.messages.filter
        fun m => m.role == "assistant")
      = (s.messages.filter fun m => m.role == "assistant") ∧
    ((get_chat_history s sid).isEmpty = true →
      ((send_message s sid raw now none now2).2.sessions.all
        fun sess => sess.id != sid || sess.title == display_title (py_strip raw))
        = true) := by
  by_cases hc : (get_chat_history s sid).isEmpty = true
  · refine ⟨?_, ?_, ?_, fun _ => ?_⟩
    · simp [send_message, h, hc]
    · simp [send_message, h, hc, update_session_title, save_message]
    · simp [send_message, h, hc, update_session_title, save_message]
    · simp only [send_message, h, hc, if_false, if_true, ite_false, ite_true,
        update_session_title, save_message]
      exact all_title_after_touch _ _ _ _
        (all_title_after_update s.sessions sid (py_strip raw) now)
  · refine ⟨?_, ?_, ?_, fun hcontra => absurd hcontra hc⟩
    · simp [send_message, h, hc]
    · simp [send_message, h, hc, save_message]
    · simp [send_message, h, hc, save_message]

/-- Witness for C10 at a concrete fresh session and failing agent. -/
theorem send_message_agent_failure_witness :
    py_strip "hi" ≠ "" ∧
    ((send_message ⟨[⟨"s", "New Legal Consultation", 0, 0⟩], [], 1⟩ "s" "hi" 1
        none 2).1 = .serverError ∧
    (send_message ⟨[⟨"s", "New Legal Consultation", 0, 0⟩], [], 1⟩ "s" "hi" 1
        none 2).2.messages
      = (Store.messages ⟨[⟨"s", "New Legal Consultation", 0, 0⟩], [], 1⟩)
          ++ [⟨1, "s", "user", py_strip "hi", 1⟩] ∧
    ((send_message ⟨[⟨"s", "New Legal Consultation", 0, 0⟩], [], 1⟩ "s" "hi" 1
        none 2).2.messages.filter fun m => m.role == "assistant")
      = ((Store.messages ⟨[⟨"s", "New Legal Consultation", 0, 0⟩], [], 1⟩).filter
          fun m => m.role == "assistant") ∧
    ((get_chat_history ⟨[⟨"s", "New Legal Consultation", 0, 0⟩], [], 1⟩ "s").isEmpty
        = true →
      ((send_message ⟨[⟨"s", "New Legal Consultation", 0, 0⟩], [], 1⟩ "s" "hi" 1
          none 2).2.sessions.all
        fun sess => sess.id != "s" || sess.title == display_title (py_strip "hi"))
        = true)) :=
  ⟨by decide,
   send_message_agent_failure ⟨[⟨"s", "New Legal Consultation", 0, 0⟩], [], 1⟩ "s"
     "hi" 1 2 (by decide)⟩

/-- Counterexample to C5 as stated: with an empty edit body and a message
id that does not exist (empty store), the right-hand side of the claimed
equivalence holds, yet the endpoint fails with the 400-class empty-body
error, not the 404-class NotEditable error — the emptiness check runs
first. -/
theorem edit_message_404_iff_counterexample :
    ¬(((edit_message emptyStore "s" 1 "" 0 0 (some "r")).1 = ApiStatus.notFound) ↔
      ((∀ m ∈ emptyStore.messages, ¬(m.id = 1 ∧ m.session_id = "s")) ∨
       (∃ m ∈ emptyStore.messages, m.id = 1 ∧ m.session_id = "s" ∧
         m.role ≠ "user"))) := by
  decide

/-- **C5 (amended).** For requests whose stripped body is non-empty (and
with the store's message ids unique, as `AUTOINCREMENT` guarantees),
`edit_message` fails with the 404-class NotEditable error **iff** no
message with the given id exists under the given session or that
message's role is not `"user"`; and on that failure the whole store is
returned unchanged — assistant messages are immutable. -/
theorem edit_message_404_iff (s : Store) (sid : String) (mid : Nat) (raw : String)
    (now now2 : Nat) (agent : Option String) (h : py_strip raw ≠ "")
    (hids : (s.messages.map Message.id).Nodup) :
    (((edit_message s sid mid raw now now2 agent).1 = .notFound) ↔
      ((∀ m ∈ s.messages, ¬(m.id = mid ∧ m.session_id = sid)) ∨
       (∃ m ∈ s.messages, m.id = mid ∧ m.session_id = sid ∧ m.role ≠ "user"))) ∧
    ((edit_message s sid mid raw now now2 agent).1 = .notFound →
      (edit_message s sid mid raw now now2 agent).2 = s) := by
  cases hfind : s.messages.find? (fun m => m.id == mid && m.session_id == sid) with
  | none =>
      have hall := List.find?_eq_none.1 hfind
      have hstat : edit_message s sid mid raw now now2 agent = (.notFound, s) := by
        simp [edit_message, h, hfind]
      rw [hstat]
      refine ⟨⟨fun _ => Or.inl fun m hm hcontra => ?_, fun _ => rfl⟩, fun _ => rfl⟩
      exact hall m hm (by simp [hcontra.1, hcontra.2])
  | some found =>
      have hmem := List.mem_of_find?_eq_some hfind
      have hpred := List.find?_some hfind
      simp only [Bool.and_eq_true, beq_iff_eq] at hpred
      by_cases hrole : found.role = "user"
      · have hres : (edit_message s sid mid raw now now2 agent).1 ≠ .notFound := by
          cases agent <;> simp [edit_message, h, hfind, hrole]
        refine ⟨⟨fun hx => absurd hx hres, ?_⟩, fun hx => absurd hx hres⟩
        rintro (hforall | ⟨m, hm, hid, hsid, hr⟩)
        · exact absurd ⟨hpred.1, hpred.2⟩ (hforall found hmem)
        · have hmf : m = found :=
            List.inj_on_of_nodup_map hids hm hmem (by rw [hid, hpred.1])
          exact absurd hrole (hmf ▸ hr)
      · have hstat : edit_message s sid mid raw now now2 agent = (.notFound, s) := by
          simp [edit_message, h, hfind, hrole]
        rw [hstat]
        exact ⟨⟨fun _ => Or.inr ⟨found, hmem, hpred.1, hpred.2, hrole⟩, fun _ => rfl⟩,
          fun _ => rfl⟩

/-- Witness for the amended C5: editing a concrete assistant message with
a non-empty body yields the 404-class failure and leaves the store
unchanged. -/
theorem edit_message_404_iff_witness :
    py_strip "new text" ≠ "" ∧
    ((Store.messages ⟨[⟨"s", "T", 0, 0⟩], [⟨1, "s", "assistant", "a", 0⟩], 2⟩).map
      Message.id).Nodup ∧
    ((((edit_message ⟨[⟨"s", "T", 0, 0⟩], [⟨1, "s", "assistant", "a", 0⟩], 2⟩ "s" 1
          "new text" 5 6 (some "r")).1 = .notFound) ↔
      ((∀ m ∈ (Store.messages ⟨[⟨"s", "T", 0, 0⟩],
          [⟨1, "s", "assistant", "a", 0⟩], 2⟩), ¬(m.id = 1 ∧ m.session_id = "s")) ∨
       (∃ m ∈ (Store.messages ⟨[⟨"s", "T", 0, 0⟩],
          [⟨1, "s", "assistant", "a", 0⟩], 2⟩), m.id = 1 ∧ m.session_id = "s" ∧
            m.role ≠ "user"))) ∧
    ((edit_message ⟨[⟨"s", "T", 0, 0⟩], [⟨1, "s", "assistant", "a", 0⟩], 2⟩ "s" 1
        "new text" 5 6 (some "r")).1 = .notFound →
      (edit_message ⟨[⟨"s", "T", 0, 0⟩], [⟨1, "s", "assistant", "a", 0⟩], 2⟩ "s" 1
        "new text" 5 6 (some "r")).2
        = ⟨[⟨"s", "T", 0, 0⟩], [⟨1, "s", "assistant", "a", 0⟩], 2⟩)) :=
  ⟨by decide, by decide,
   edit_message_404_iff ⟨[⟨"s", "T", 0, 0⟩], [⟨1, "s", "assistant", "a", 0⟩], 2⟩ "s" 1
     "new text" 5 6 (some "r") (by decide) (by decide)⟩

/-!
## The API surface as an operation sequence (for referential integrity)
-/

/-- One inbound API request, with the nondeterministic environment data
(fresh UUID, clock readings, agent outcome) made explicit. -/
inductive Op where
  | newSession (sid : String) (now : Nat)
  | send (sid raw : String) (now : Nat) (agent : Option String) (now2 : Nat)
  | edit (sid : String) (mid : Nat) (raw : String) (now now2 : Nat)
      (agent : Option String)
  | delete (sid : String)
deriving DecidableEq, Repr

/-- The store after one request (the HTTP response is discarded). -/
def applyOp (s : Store) : Op → Store
  | .newSession sid now => create_new_session s sid now
  | .send sid raw now agent now2 => (send_message s sid raw now agent now2).2
  | .edit sid mid raw now now2 agent => (edit_message s sid mid raw now now2 agent).2
  | .delete sid => delete_session s sid

/-- The store after a sequence of requests. -/
def applyOps (s : Store) : List Op → Store
  | [] => s
  | op :: rest => applyOps (applyOp s op) rest

/-- Does the request target a session row that exists at call time?
(Creating and deleting sessions always count.) -/
def opTargetsExisting (s : Store) : Op → Bool
  | .newSession _ _ => true
  | .send sid _ _ _ _ => s.sessions.any (fun sess => sess.id == sid)
  | .edit sid _ _ _ _ _ => s.sessions.any (fun sess => sess.id == sid)
  | .delete _ => true

/-- A request sequence in which every send/edit is issued against a
session id existing in the store at the time of that call. -/
def validSeq (s : Store) : List Op → Bool
  | [] => true
  | op :: rest => opTargetsExisting s op && validSeq (applyOp s op) rest

/-- Referential integrity: every message row's `session_id` matches an
existing session row. -/
def msgOk (s : Store) : Prop :=
  ∀ m ∈ s.messages, ∃ sess ∈ s.sessions, sess.id = m.session_id

instance (s : Store) : Decidable (msgOk s) := by
  unfold msgOk; infer_instance

lemma touch_id (sid : String) (now : Nat) (sess : Session) :
    (if sess.id == sid then { sess with updated_at := now } else sess).id
      = sess.id := by
  split <;> rfl

lemma title_id (sid t : String) (now : Nat) (sess : Session) :
    (if sess.id == sid then
      { sess with title := display_title t, updated_at := now } else sess).id
      = sess.id := by
  split <;> rfl

/-- Mapping an id-preserving function over the session table keeps every
"a session with this id exists" fact. -/
lemma exists_id_map (l : List Session) (f : Session → Session)
    (hf : ∀ sess, (f sess).id = sess.id) (x : String)
    (h : ∃ sess ∈ l, sess.id = x) : ∃ sess ∈ l.map f, sess.id = x := by
  obtain ⟨sess, hm, hx⟩ := h
  exact ⟨f sess, List.mem_map_of_mem f hm, by rw [hf, hx]⟩

lemma exists_sid_save_message (s : Store) (sid role content : String) (now : Nat)
    (x : String) (h : ∃ sess ∈ s.sessions, sess.id = x) :
    ∃ sess ∈ (save_message s sid role content now).sessions, sess.id = x := by
  simp only [save_message]
  exact exists_id_map _ _ (touch_id sid now) x h

lemma exists_sid_update_title (s : Store) (sid t : String) (now : Nat) (x : String)
    (h : ∃ sess ∈ s.sessions, sess.id = x) :
    ∃ sess ∈ (update_session_title s sid t now).sessions, sess.id = x := by
  simp only [update_session_title]
  exact exists_id_map _ _ (title_id sid t now) x h

lemma msgOk_update_title (s : Store) (sid t : String) (now : Nat) (h : msgOk s) :
    msgOk (update_session_title s sid t now) := by
  intro m hm
  simp only [update_session_title] at hm
  exact exists_sid_update_title s sid t now _ (h m hm)

lemma msgOk_save_message (s : Store) (sid role content : String) (now : Nat)
    (h : msgOk s) (hsid : ∃ sess ∈ s.sessions, sess.id = sid) :
    msgOk (save_message s sid role content now) := by
  intro m hm
  simp only [save_message, List.mem_append, List.mem_singleton] at hm
  rcases hm with hm | rfl
  · exact exists_sid_save_message s sid role content now _ (h m hm)
  · exact exists_sid_save_message s sid role content now sid hsid

lemma msgOk_edit_truncate (s : Store) (sid : String) (mid : Nat) (c : String)
    (now : Nat) (h : msgOk s) : msgOk (edit_truncate s sid mid c now) := by
  intro m hm
  simp only [edit_truncate] at hm ⊢
  have hm' := List.mem_of_mem_filter hm
  obtain ⟨m₀, hm₀, rfl⟩ := List.mem_map.1 hm'
  have hsid : (if m₀.id == mid && m₀.session_id == sid then
      { m₀ with content := c, timestamp := now } else m₀).session_id
        = m₀.session_id := by
    split <;> rfl
  rw [hsid]
  exact exists_id_map _ _ (touch_id sid now) _ (h m₀ hm₀)

/-- The store committed by `send_message` is one of: unchanged (400), or
the user-message insert over the (possibly retitled) store, with the
assistant reply appended when the agent succeeds. -/
lemma send_message_store (s : Store) (sid raw : String) (now : Nat)
    (agent : Option String) (now2 : Nat) :
    (send_message s sid raw now agent now2).2 = s ∨
    ∃ s₁, (s₁ = s ∨ s₁ = update_session_title s sid (py_strip raw) now) ∧
      ((send_message s sid raw now agent now2).2
          = save_message s₁ sid "user" (py_strip raw) now ∨
       ∃ ai, (send_message s sid raw now agent now2).2
          = save_message (save_message s₁ sid "user" (py_strip raw) now) sid
              "assistant" ai now2) := by
  by_cases he : py_strip raw = ""
  · left
    simp [send_message, he]
  · right
    by_cases hc : (get_chat_history s sid).isEmpty = true
    · refine ⟨update_session_title s sid (py_strip raw) now, Or.inr rfl, ?_⟩
      cases agent with
      | none => exact Or.inl (by simp [send_message, he, hc])
      | some ai => exact Or.inr ⟨ai, by simp [send_message, he, hc]⟩
    · refine ⟨s, Or.inl rfl, ?_⟩
      cases agent with
      | none => exact Or.inl (by simp [send_message, he, hc])
      | some ai => exact Or.inr ⟨ai, by simp [send_message, he, hc]⟩

/-- The store committed by `edit_message` is one of: unchanged (400/404),
the truncated-and-edited store (agent raised), or that store plus the
assistant reply. -/
lemma edit_message_store (s : Store) (sid : String) (mid : Nat) (raw : String)
    (now now2 : Nat) (agent : Option String) :
    (edit_message s sid mid raw now now2 agent).2 = s ∨
    (edit_message s sid mid raw now now2 agent).2
        = edit_truncate s sid mid (py_strip raw) now ∨
    ∃ ai, (edit_message s sid mid raw now now2 agent).2
        = save_message (edit_truncate s sid mid (py_strip raw) now) sid
            "assistant" ai now2 := by
  by_cases he : py_strip raw = ""
  · left
    simp [edit_message, he]
  · cases hfind : s.messages.find? (fun m => m.id == mid && m.session_id == sid) with
    | none =>
        left
        simp [edit_message, he, hfind]
    | some found =>
        by_cases hrole : found.role = "user"
        · cases agent with
          | none => exact Or.inr (Or.inl (by simp [edit_message, he, hfind, hrole]))
          | some ai =>
              exact Or.inr (Or.inr ⟨ai, by simp [edit_message, he, hfind, hrole]⟩)
        · left
          simp [edit_message, he, hfind, hrole]

/-- One valid request preserves referential integrity. -/
lemma msgOk_applyOp (s : Store) (op : Op) (h : msgOk s)
    (hv : opTargetsExisting s op = true) : msgOk (applyOp s op) := by
  cases op with
  | newSession sid now =>
      intro m hm
      simp only [applyOp, create_new_session] at hm ⊢
      obtain ⟨sess, hsm, hx⟩ := h m hm
      exact ⟨sess, List.mem_append_left _ hsm, hx⟩
  | delete sid =>
      intro m hm
      simp only [applyOp, delete_session] at hm ⊢
      have hm' := List.mem_of_mem_filter hm
      have hns : ¬(m.session_id = sid) := by
        have := List.of_mem_filter hm
        simpa using this
      obtain ⟨sess, hsm, hx⟩ := h m hm'
      refine ⟨sess, List.mem_filter.2 ⟨hsm, ?_⟩, hx⟩
      simp [hx, hns]
  | send sid raw now agent now2 =>
      have hsid : ∃ sess ∈ s.sessions, sess.id = sid := by
        simpa [opTargetsExisting, List.any_eq_true] using hv
      simp only [applyOp]
      rcases send_message_store s sid raw now agent now2 with hres | ⟨s₁, hs₁, hres⟩
      · rw [hres]; exact h
      · have h₁ : msgOk s₁ := by
          rcases hs₁ with rfl | rfl
          · exact h
          · exact msgOk_update_title s sid (py_strip raw) now h
        have hsid₁ : ∃ sess ∈ s₁.sessions, sess.id = sid := by
          rcases hs₁ with rfl | rfl
          · exact hsid
          · exact exists_sid_update_title s sid (py_strip raw) now sid hsid
        rcases hres with hres | ⟨ai, hres⟩
        · rw [hres]
          exact msgOk_save_message _ _ _ _ _ h₁ hsid₁
        · rw [hres]
          exact msgOk_save_message _ _ _ _ _ (msgOk_save_message _ _ _ _ _ h₁ hsid₁)
            (exists_sid_save_message _ _ _ _ _ sid hsid₁)
  | edit sid mid raw now now2 agent =>
      have hsid : ∃ sess ∈ s.sessions, sess.id = sid := by
        simpa [opTargetsExisting, List.any_eq_true] using hv
      simp only [applyOp]
      rcases edit_message_store s sid mid raw now now2 agent with hres | hres | ⟨ai, hres⟩
      · rw [hres]; exact h
      · rw [hres]
        exact msgOk_edit_truncate _ _ _ _ _ h
      · rw [hres]
        refine msgOk_save_message _ _ _ _ _ (msgOk_edit_truncate _ _ _ _ _ h) ?_
        simp only [edit_truncate]
        exact exists_id_map _ _ (touch_id sid now) sid hsid

/-- Counterexample to C4 as stated: the API sequence "create session
`a`, delete it, send a message to `a` again" — every step an ordinary
request through the defined surface — leaves a message row whose
`session_id` matches no session row (SQLite does not enforce the declared
foreign key by default and `send_message` never checks existence). -/
theorem api_orphan_counterexample :
    ∃ m ∈ (applyOps emptyStore [Op.newSession "a" 0, Op.delete "a",
        Op.send "a" "hi" 1 (some "r") 2]).messages,
      ∀ sess ∈ (applyOps emptyStore [Op.newSession "a" 0, Op.delete "a",
        Op.send "a" "hi" 1 (some "r") 2]).sessions, sess.id ≠ m.session_id := by
  decide

/-- **C4 (amended).** For every sequence of API operations in which each
send/edit targets a session id existing in the store at the time of that
call, referential integrity is preserved: every message row's
`session_id` matches an existing session row. (Without that restriction
the property fails: sending to a deleted or never-created id inserts an
orphan message.) -/
theorem api_preserves_session_fk (s : Store) (ops : List Op) (h : msgOk s)
    (hv : validSeq s ops = true) : msgOk (applyOps s ops) := by
  induction ops generalizing s with
  | nil => exact h
  | cons op rest ih =>
      simp only [validSeq, Bool.and_eq_true] at hv
      exact ih (applyOp s op) (msgOk_applyOp s op h hv.1) hv.2

/-- Witness for the amended C4 on a concrete valid sequence exercising
every operation. -/
theorem api_preserves_session_fk_witness :
    msgOk emptyStore ∧
    validSeq emptyStore [Op.newSession "a" 0, Op.send "a" "hello" 1 (some "r") 2,
      Op.edit "a" 1 "fixed" 3 4 (some "r2"), Op.newSession "b" 5,
      Op.delete "a", Op.send "b" "hey" 6 none 7] = true ∧
    msgOk (applyOps emptyStore [Op.newSession "a" 0,
      Op.send "a" "hello" 1 (some "r") 2, Op.edit "a" 1 "fixed" 3 4 (some "r2"),
      Op.newSession "b" 5, Op.delete "a", Op.send "b" "hey" 6 none 7]) :=
  ⟨by decide, by decide,
   api_preserves_session_fk emptyStore [Op.newSession "a" 0,
     Op.send "a" "hello" 1 (some "r") 2, Op.edit "a" 1 "fixed" 3 4 (some "r2"),
     Op.newSession "b" 5, Op.delete "a", Op.send "b" "hey" 6 none 7]
     (by decide) (by decide)⟩

/-- With strictly increasing ids (the `AUTOINCREMENT` invariant),
`fetchone` on `id = ? AND session_id = ?` returns exactly the target
message. -/
lemma find?_unique_id (l : List Message) (sid : String) (M : Message)
    (hp : l.Pairwise (fun a b => a.id < b.id))
    (hM : M ∈ l) (hsid : M.session_id = sid) :
    l.find? (fun m => m.id == M.id && m.session_id == sid) = some M := by
  induction l with
  | nil => cases hM
  | cons a t ih =>
      rcases List.mem_cons.1 hM with rfl | hMt
      · exact List.find?_cons_of_pos t (by simp [hsid])
      · have halt : a.id < M.id := (List.pairwise_cons.1 hp).1 M hMt
        rw [List.find?_cons_of_neg t (by simp [Nat.ne_of_lt halt]),
          ih (List.pairwise_cons.1 hp).2 hMt]

/-- The committed messages after an edit of `M`, when `M` splits the
rowid order as `L₁ ++ M :: L₂` with all of `L₁` below `M.id` and all of
`L₂` above: `L₁` survives untouched, `M` is rewritten in place, and of
`L₂` only other sessions' rows survive. -/
lemma edit_truncate_messages (s : Store) (sid : String) (M : Message) (c : String)
    (now : Nat) (L₁ L₂ : List Message) (hsplit : s.messages = L₁ ++ M :: L₂)
    (hL₁ : ∀ a ∈ L₁, a.id < M.id) (hL₂ : ∀ b ∈ L₂, M.id < b.id)
    (hsid : M.session_id = sid) :
    (edit_truncate s sid M.id c now).messages
      = L₁ ++ { M with content := c, timestamp := now }
          :: (L₂.filter fun b => !(b.session_id == sid)) := by
  have hmap : s.messages.map (fun m =>
      if m.id == M.id && m.session_id == sid then
        { m with content := c, timestamp := now } else m)
      = L₁ ++ { M with content := c, timestamp := now } :: L₂ := by
    rw [hsplit, List.map_append, List.map_cons]
    congr 1
    · rw [List.map_congr_left (fun a ha => ?_), List.map_id]
      simp [Nat.ne_of_lt (hL₁ a ha)]
    · congr 1
      · simp [hsid]
      · rw [List.map_congr_left (fun b hb => ?_), List.map_id]
        simp [Nat.ne_of_gt (hL₂ b hb)]
  simp only [edit_truncate, hmap]
  rw [List.filter_append, List.filter_cons]
  congr 1
  · exact List.filter_eq_self.2 fun a ha => by simp [Nat.le_of_lt_succ, Nat.not_lt.2 (Nat.le_of_lt (hL₁ a ha))]
  · have hM' : (!({ M with content := c, timestamp := now }.session_id == sid
        && decide (M.id < { M with content := c, timestamp := now }.id))) = true := by
      simp
    rw [if_pos hM']
    congr 1
    exact List.filter_congr fun b hb => by simp [hL₂ b hb]

/-- After the edit route's own touch (`now`) followed by the assistant
save's touch (`now2`), the target session's `updated_at` is `now2`. -/
lemma all_updated_after_touch_touch (l : List Session) (sid : String) (n₁ n₂ : Nat) :
    (((l.map fun sess => if sess.id == sid then { sess with updated_at := n₁ }
        else sess).map fun sess => if sess.id == sid then
          { sess with updated_at := n₂ } else sess).all
      fun sess => sess.id != sid || sess.updated_at == n₂) = true := by
  simp only [List.map_map, List.all_eq_true, List.mem_map, Function.comp]
  rintro x ⟨sess, _, rfl⟩
  by_cases h : sess.id = sid <;> simp [h]

/-- **C1.** A successful edit of user message `M` (non-empty stripped
body, `M` under session `sid` with role `"user"`, in a well-formed store
whose timestamps do not exceed the request clock) returns the fresh
assistant reply, and afterwards the session's history is exactly: the
session's messages with id strictly below `M.id`, then `M` rewritten in
place with the new content and refreshed timestamp, then the single new
assistant reply — every same-session message with id greater than `M.id`
is gone — and the session's `updated_at` has been touched (to the
assistant save's clock `now2`). -/
theorem edit_message_truncates_and_replies (s : Store) (sid : String) (M : Message)
    (raw : String) (now now2 : Nat) (ai : String)
    (hWF : WF s) (hM : M ∈ s.messages) (hsid : M.session_id = sid)
    (hrole : M.role = "user") (hraw : py_strip raw ≠ "")
    (hts : ∀ m ∈ s.messages, m.timestamp ≤ now) (h12 : now ≤ now2) :
    (edit_message s sid M.id raw now now2 (some ai)).1 = .ok ai ∧
    get_chat_history (edit_message s sid M.id raw now now2 (some ai)).2 sid
      = (s.messages.filter fun m => m.session_id == sid && decide (m.id < M.id))
          ++ [{ M with content := py_strip raw, timestamp := now },
              ⟨s.nextId, sid, "assistant", ai, now2⟩] ∧
    ((edit_message s sid M.id raw now now2 (some ai)).2.sessions.all
      fun sess => sess.id != sid || sess.updated_at == now2) = true := by
  have hpid : s.messages.Pairwise (fun a b => a.id < b.id) :=
    hWF.1.imp (fun h => h.1)
  have hfind := find?_unique_id s.messages sid M hpid hM hsid
  have hstore : edit_message s sid M.id raw now now2 (some ai)
      = (.ok ai, save_message (edit_truncate s sid M.id (py_strip raw) now) sid
          "assistant" ai now2) := by
    simp [edit_message, hraw, hfind, hrole]
  rw [hstore]
  obtain ⟨L₁, L₂, hsplit⟩ := List.append_of_mem hM
  have hpR := hWF.1
  rw [hsplit] at hpR
  obtain ⟨pwL₁, pwML₂, cross⟩ := List.pairwise_append.1 hpR
  have hL₁ : ∀ a ∈ L₁, a.id < M.id :=
    fun a ha => (cross a ha M (List.mem_cons_self _ _)).1
  have hL₂ : ∀ b ∈ L₂, M.id < b.id :=
    fun b hb => ((List.pairwise_cons.1 pwML₂).1 b hb).1
  have hmem₁ : ∀ a ∈ L₁, a ∈ s.messages := fun a ha => by
    rw [hsplit]
    exact List.mem_append_left _ ha
  refine ⟨rfl, ?_, ?_⟩
  · have htm := edit_truncate_messages s sid M (py_strip raw) now L₁ L₂ hsplit hL₁
      hL₂ hsid
    have hnext : (edit_truncate s sid M.id (py_strip raw) now).nextId = s.nextId := rfl
    have hmsgs : (save_message (edit_truncate s sid M.id (py_strip raw) now) sid
        "assistant" ai now2).messages
        = (L₁ ++ { M with content := py_strip raw, timestamp := now }
            :: (L₂.filter fun b => !(b.session_id == sid)))
          ++ [⟨s.nextId, sid, "assistant", ai, now2⟩] := by
      simp only [save_message]
      rw [htm, hnext]
    have h2nil : ((L₂.filter fun b => !(b.session_id == sid)).filter
        fun m => m.session_id == sid) = [] := by
      rw [List.filter_eq_nil_iff]
      intro b hb
      have hb' := List.of_mem_filter hb
      simp_all
    have hfil : (((L₁ ++ { M with content := py_strip raw, timestamp := now }
          :: (L₂.filter fun b => !(b.session_id == sid)))
          ++ ([⟨s.nextId, sid, "assistant", ai, now2⟩] : List Message)).filter
            fun m => m.session_id == sid)
        = (L₁.filter fun m => m.session_id == sid)
          ++ [{ M with content := py_strip raw, timestamp := now },
              (⟨s.nextId, sid, "assistant", ai, now2⟩ : Message)] := by
      rw [List.filter_append, List.filter_append, List.filter_cons]
      simp [hsid, h2nil]
    have hpre : (s.messages.filter fun m => m.session_id == sid
          && decide (m.id < M.id))
        = (L₁.filter fun m => m.session_id == sid) := by
      have hL₁eq : (L₁.filter fun m => m.session_id == sid && decide (m.id < M.id))
          = (L₁.filter fun m => m.session_id == sid) :=
        List.filter_congr fun a ha => by simp [hL₁ a ha]
      have hMfalse : (M.session_id == sid && decide (M.id < M.id)) = false := by
        simp
      have h2 : (L₂.filter fun m => m.session_id == sid
          && decide (m.id < M.id)) = [] := by
        rw [List.filter_eq_nil_iff]
        intro b hb
        simp [Nat.lt_asymm (hL₂ b hb)]
      rw [hsplit, List.filter_append, List.filter_cons]
      simp [hMfalse, h2, hL₁eq]
    have hsorted : ((L₁.filter fun m => m.session_id == sid)
        ++ [{ M with content := py_strip raw, timestamp := now },
            (⟨s.nextId, sid, "assistant", ai, now2⟩ : Message)]).Pairwise
          (fun a b : Message => a.timestamp ≤ b.timestamp) := by
      refine List.pairwise_append.2 ⟨?_, ?_, ?_⟩
      · refine (pwL₁.filter _).imp_of_mem ?_
        intro a b ha hb hr
        have ha' := List.of_mem_filter ha
        have hb' := List.of_mem_filter hb
        rw [beq_iff_eq] at ha' hb'
        exact hr.2 (ha'.trans hb'.symm)
      · simp [List.pairwise_cons, h12]
      · intro a ha b hb
        have hat : a.timestamp ≤ now := hts a (hmem₁ a (List.mem_of_mem_filter ha))
        rcases List.mem_cons.1 hb with rfl | hb'
        · exact hat
        · rcases List.mem_singleton.1 hb' with rfl
          exact Nat.le_trans hat h12
    calc get_chat_history (save_message (edit_truncate s sid M.id (py_strip raw) now)
            sid "assistant" ai now2) sid
        = List.insertionSort (fun a b : Message => a.timestamp ≤ b.timestamp)
            ((L₁.filter fun m => m.session_id == sid)
              ++ [{ M with content := py_strip raw, timestamp := now },
                  ⟨s.nextId, sid, "assistant", ai, now2⟩]) := by
          simp only [get_chat_history]
          rw [hmsgs, hfil]
      _ = (L₁.filter fun m => m.session_id == sid)
            ++ [{ M with content := py_strip raw, timestamp := now },
                ⟨s.nextId, sid, "assistant", ai, now2⟩] :=
          List.Sorted.insertionSort_eq hsorted
      _ = (s.messages.filter fun m => m.session_id == sid && decide (m.id < M.id))
            ++ [{ M with content := py_strip raw, timestamp := now },
                ⟨s.nextId, sid, "assistant", ai, now2⟩] := by
          rw [hpre]
  · simp only [save_message, edit_truncate]
    exact all_updated_after_touch_touch s.sessions sid now now2

/-- Witness for C1 at the spec's example: a session holding messages
1..5 where message 2 is a user message; editing message 2 leaves exactly
message 1, edited message 2, and the single fresh assistant reply. -/
theorem edit_message_truncates_and_replies_witness :
    WF ⟨[⟨"s", "T", 0, 5⟩],
        [⟨1, "s", "user", "a", 1⟩, ⟨2, "s", "user", "b", 2⟩,
         ⟨3, "s", "assistant", "c", 3⟩, ⟨4, "s", "user", "d", 4⟩,
         ⟨5, "s", "assistant", "e", 5⟩], 6⟩ ∧
    (⟨2, "s", "user", "b", 2⟩ : Message) ∈ (Store.messages ⟨[⟨"s", "T", 0, 5⟩],
        [⟨1, "s", "user", "a", 1⟩, ⟨2, "s", "user", "b", 2⟩,
         ⟨3, "s", "assistant", "c", 3⟩, ⟨4, "s", "user", "d", 4⟩,
         ⟨5, "s", "assistant", "e", 5⟩], 6⟩) ∧
    py_strip "better question" ≠ "" ∧
    (∀ m ∈ (Store.messages ⟨[⟨"s", "T", 0, 5⟩],
        [⟨1, "s", "user", "a", 1⟩, ⟨2, "s", "user", "b", 2⟩,
         ⟨3, "s", "assistant", "c", 3⟩, ⟨4, "s", "user", "d", 4⟩,
         ⟨5, "s", "assistant", "e", 5⟩], 6⟩), m.timestamp ≤ 10) ∧
    ((edit_message ⟨[⟨"s", "T", 0, 5⟩],
        [⟨1, "s", "user", "a", 1⟩, ⟨2, "s", "user", "b", 2⟩,
         ⟨3, "s", "assistant", "c", 3⟩, ⟨4, "s", "user", "d", 4⟩,
         ⟨5, "s", "assistant", "e", 5⟩], 6⟩ "s" 2 "better question" 10 11
        (some "new reply")).1 = .ok "new reply" ∧
     get_chat_history (edit_message ⟨[⟨"s", "T", 0, 5⟩],
        [⟨1, "s", "user", "a", 1⟩, ⟨2, "s", "user", "b", 2⟩,
         ⟨3, "s", "assistant", "c", 3⟩, ⟨4, "s", "user", "d", 4⟩,
         ⟨5, "s", "assistant", "e", 5⟩], 6⟩ "s" 2 "better question" 10 11
        (some "new reply")).2 "s"
       = ((Store.messages ⟨[⟨"s", "T", 0, 5⟩],
          [⟨1, "s", "user", "a", 1⟩, ⟨2, "s", "user", "b", 2⟩,
           ⟨3, "s", "assistant", "c", 3⟩, ⟨4, "s", "user", "d", 4⟩,
           ⟨5, "s", "assistant", "e", 5⟩], 6⟩).filter
            fun m => m.session_id == "s" && decide (m.id < 2))
         ++ [⟨2, "s", "user", py_strip "better question", 10⟩,
             ⟨6, "s", "assistant", "new reply", 11⟩] ∧
     ((edit_message ⟨[⟨"s", "T", 0, 5⟩],
        [⟨1, "s", "user", "a", 1⟩, ⟨2, "s", "user", "b", 2⟩,
         ⟨3, "s", "assistant", "c", 3⟩, ⟨4, "s", "user", "d", 4⟩,
         ⟨5, "s", "assistant", "e", 5⟩], 6⟩ "s" 2 "better question" 10 11
        (some "new reply")).2.sessions.all
       fun sess => sess.id != "s" || sess.updated_at == 11) = true) :=
  ⟨by decide, by decide, by decide, by decide,
   edit_message_truncates_and_replies ⟨[⟨"s", "T", 0, 5⟩],
     [⟨1, "s", "user", "a", 1⟩, ⟨2, "s", "user", "b", 2⟩,
      ⟨3, "s", "assistant", "c", 3⟩, ⟨4, "s", "user", "d", 4⟩,
      ⟨5, "s", "assistant", "e", 5⟩], 6⟩ "s" ⟨2, "s", "user", "b", 2⟩
     "better question" 10 11 "new reply" (by decide) (by decide) (by decide)
     (by decide) (by decide) (by decide) (by decide)⟩
